import Mathlib

/-!
Shallow embedding of `src/components/TechStackFlow.tsx`: the layout/position
store, scenario edge filter, payload inspector, and the view-controller state
machine (layout switching, drag persistence, reset, restore, export/import,
edge connection).  Presentational data (labels, colors, CSS, tooltips, the
theme editor) is out of scope of the claims and is not modelled; each
definition below mirrors one source constant or handler.
-/

namespace TechStackFlow

/-- Source `type LayoutMode = 'cube' | 'lanes'`. -/
inductive LayoutMode where
  | cube
  | lanes
deriving DecidableEq, Repr

/-- Source `type ScenarioKey = ...` (the eight named scenarios). -/
inductive ScenarioKey where
  | OrderCreated
  | Returns
  | ConsentEvents
  | Feeds
  | Tracking
  | TrustedShops
  | GA4_GTM_Ads
  | SelfService
deriving DecidableEq, Repr

/-- The scenario selector state `ScenarioKey | 'ALL'`. -/
inductive ScenarioSel where
  | ALL
  | named (k : ScenarioKey)
deriving DecidableEq, Repr

/-- A 2-D node position `{ x, y }`.  The source handles positions as opaque
numbers (no arithmetic is performed on them), so integer coordinates model
them exactly for every operation of the component. -/
structure Pos where
  x : Int
  y : Int
deriving DecidableEq, Repr

/-- A JS object `Record<string, {x, y}>` in insertion order (JSON objects
keep string-key insertion order; lookups take the unique binding). -/
abbrev PosMap := List (String × Pos)

/-- First-binding lookup in a position record (JS property access; records
built by `objFromPairs` below never hold duplicate keys). -/
def lookupPos (m : PosMap) (id : String) : Option Pos :=
  (m.find? (fun kv => kv.1 == id)).map (·.2)

/-- JS object construction semantics: assigning to an existing key overwrites
its value in place, assigning a fresh key appends it. -/
def objInsert (m : PosMap) (k : String) (v : Pos) : PosMap :=
  if m.any (fun kv => kv.1 == k) then
    m.map (fun kv => if kv.1 == k then (kv.1, v) else kv)
  else
    m ++ [(k, v)]

/-- Building a JS object by assigning the pairs left to right (the
`next.forEach((node) => { map[node.id] = node.position })` in
`onNodeDragStop` and the `nodes.reduce` in `exportJSON`). -/
def objFromPairs (l : List (String × Pos)) : PosMap :=
  l.foldl (fun m kv => objInsert m kv.1 kv.2) []

/-- Source `Object.keys(NODE_META)`: the node identifiers in the insertion order of
the `NODE_META` literal (which follows the `NODES` constant). -/
def nodeIds : List String :=
  [ "shopify", "marketplace-tab", "channelengine", "hublify-oms",
    "hublify-pim", "sap-s4", "sap-wms", "dachser-edi", "sendcloud",
    "hubspot", "trusted-shops", "cdp", "ga4", "gtm", "ad-pixels",
    "repricing", "knowledge-base", "self-helpdesk", "chatbot",
    "returns-portal", "endkunde-b2c", "b2b-kunde" ]

/-- Source `CUBE_POS`: the cube-layout preset positions, in source literal order. -/
def CUBE_POS : PosMap :=
  [ ("endkunde-b2c", ⟨40, 80⟩), ("b2b-kunde", ⟨40, 200⟩),
    ("shopify", ⟨300, 80⟩), ("marketplace-tab", ⟨300, 160⟩),
    ("channelengine", ⟨300, 260⟩), ("hublify-pim", ⟨560, 40⟩),
    ("repricing", ⟨560, 140⟩), ("hublify-oms", ⟨560, 240⟩),
    ("sap-s4", ⟨820, 200⟩), ("sap-wms", ⟨1080, 220⟩),
    ("dachser-edi", ⟨1340, 220⟩), ("sendcloud", ⟨1600, 220⟩),
    ("hubspot", ⟨820, 40⟩), ("trusted-shops", ⟨1080, 40⟩),
    ("cdp", ⟨820, 360⟩), ("gtm", ⟨1080, 360⟩),
    ("ga4", ⟨1340, 360⟩), ("ad-pixels", ⟨1600, 360⟩),
    ("knowledge-base", ⟨300, 360⟩), ("self-helpdesk", ⟨560, 360⟩),
    ("chatbot", ⟨300, 480⟩), ("returns-portal", ⟨560, 480⟩) ]

/-- Source `LANES_POS`: the lanes-layout preset positions, in source literal order. -/
def LANES_POS : PosMap :=
  [ ("endkunde-b2c", ⟨80, 40⟩), ("b2b-kunde", ⟨240, 40⟩),
    ("shopify", ⟨80, 160⟩), ("marketplace-tab", ⟨240, 160⟩),
    ("channelengine", ⟨400, 160⟩), ("hublify-oms", ⟨80, 280⟩),
    ("hublify-pim", ⟨240, 280⟩), ("sap-s4", ⟨80, 400⟩),
    ("sap-wms", ⟨240, 400⟩), ("dachser-edi", ⟨80, 520⟩),
    ("sendcloud", ⟨240, 520⟩), ("gtm", ⟨80, 640⟩),
    ("ga4", ⟨240, 640⟩), ("ad-pixels", ⟨400, 640⟩),
    ("hubspot", ⟨80, 760⟩), ("knowledge-base", ⟨240, 760⟩),
    ("self-helpdesk", ⟨400, 760⟩), ("chatbot", ⟨560, 760⟩),
    ("cdp", ⟨80, 880⟩), ("trusted-shops", ⟨80, 1000⟩),
    ("repricing", ⟨240, 1000⟩), ("returns-portal", ⟨400, 1000⟩) ]

/-- Source `const base = mode === 'cube' ? CUBE_POS : LANES_POS`. -/
def presetOf (mode : LayoutMode) : PosMap :=
  match mode with
  | .cube => CUBE_POS
  | .lanes => LANES_POS

/-- JSON values, numbers kept literally as mantissa and decimal-exponent
(`num 1299 1` is the literal `129.9`); the static payload table only holds
such decimal literals, so this represents it exactly. -/
inductive Json where
  | str (s : String)
  | num (mantissa : Int) (exp10 : Nat)
  | bool (b : Bool)
  | arr (elems : List Json)
  | obj (fields : List (String × Json))
deriving Repr

/-- Source `const PAYLOADS: Record<string, unknown>`: the static example payload per
edge id, entries in source literal order. -/
def PAYLOADS : List (String × Json) :=
  [ ("edge-b2c-chatbot", .obj [("source", .str "B2C Customer"), ("tool", .str "Chatbot"), ("location", .str "Shopify")]),
    ("edge-shopify-chatbot", .obj [("embed", .bool true), ("channel", .str "Shopify Storefront")]),
    ("edge-chatbot-kb", .obj [("action", .str "search"), ("query", .str "refund policy")]),
    ("edge-kb-pim", .obj [("source", .str "PIM"), ("fields", .arr [.str "title", .str "attributes", .str "faq"])]),
    ("edge-help-kb", .obj [("context", .str "Self Helpdesk"), ("linkType", .str "KB Article")]),
    ("edge-returns-kb", .obj [("context", .str "Returns Portal"), ("linkType", .str "KB Article")]),
    ("edge-kb-cdp", .obj [("event", .str "KBViewed"), ("tags", .arr [.str "support", .str "content"])]),
    ("edge-returns-cdp", .obj [("event", .str "ReturnCreated"), ("fields", .arr [.str "rma", .str "reason"])]),
    ("edge-chatbot-hubspot", .obj [("action", .str "Create Ticket"), ("priority", .str "Normal")]),
    ("edge-b2b-shop", .obj [("channel", .str "B2B"), ("to", .str "Shopify"),
      ("payload", .obj [("poNumber", .str "PO-90231"), ("terms", .str "Net30")])]),
    ("edge-b2c-shop", .obj [("channel", .str "B2C"), ("to", .str "Shopify"),
      ("payload", .obj [("cartItems", .num 4 0), ("coupon", .str "Q4SAVE")])]),
    ("edge-b2c-marketplace", .obj [("channel", .str "B2C"), ("to", .str "Marketplace Tab"), ("marketplace", .bool true)]),
    ("edge-marketplace-channelengine", .obj [("route", .str "Shop Tab → ChannelEngine"),
      ("payload", .obj [("marketplaces", .arr [.str "Amazon", .str "eBay"])])]),
    ("edge-channelengine-oms", .obj [("step", .str "ChannelEngine→OMS"),
      ("payload", .obj [("importedOrders", .num 12 0)])]),
    ("edge-order-shopify-oms", .obj [("event", .str "OrderCreated"), ("source", .str "Shopify"),
      ("target", .str "OMS"),
      ("payload", .obj [("orderId", .str "SO-100234"), ("items", .num 3 0),
        ("totalGross", .num 1299 1), ("currency", .str "EUR")])]),
    ("edge-order-oms-sap", .obj [("step", .str "OMS→SAP"), ("messageType", .str "ORDERS"),
      ("payload", .obj [("orderId", .str "SO-100234"), ("status", .str "Released")])]),
    ("edge-order-sap-dachser", .obj [("step", .str "SAP→Dachser(EDI)"), ("edi", .str "DESADV"),
      ("payload", .obj [("shipmentId", .str "SH-77823"), ("packages", .num 2 0)])]),
    ("edge-order-dachser-sendcloud", .obj [("step", .str "Dachser→Sendcloud"),
      ("payload", .obj [("trackingNo", .str "JD0123456789"), ("carrier", .str "DHL")])]),
    ("edge-order-backfeed-oms", .obj [("step", .str "Sendcloud→OMS"),
      ("payload", .obj [("status", .str "Shipped"), ("trackingNo", .str "JD0123456789")])]),
    ("edge-order-backfeed-channels", .obj [("step", .str "OMS→Shopify"),
      ("payload", .obj [("orderId", .str "SO-100234"), ("status", .str "Shipped")])]),
    ("edge-order-backfeed-channels2", .obj [("step", .str "OMS→ChannelEngine"),
      ("payload", .obj [("orderId", .str "SO-100234"), ("status", .str "Shipped")])]),
    ("edge-returns-portal-oms", .obj [("event", .str "ReturnRequested"),
      ("payload", .obj [("rma", .str "RMA-55671"), ("reason", .str "Size")])]),
    ("edge-returns-oms-sap", .obj [("step", .str "OMS→SAP"),
      ("payload", .obj [("rma", .str "RMA-55671"), ("disposition", .str "Inspect")])]),
    ("edge-returns-sap-hubspot", .obj [("step", .str "SAP→HubSpot"),
      ("payload", .obj [("rma", .str "RMA-55671"), ("refund", .num 4995 2)])]),
    ("edge-returns-oms-sendcloud", .obj [("step", .str "OMS→Sendcloud"),
      ("payload", .obj [("label", .bool true), ("dropOff", .str "DHL Shop")])]),
    ("edge-consent-shopify-cdp", .obj [("event", .str "ConsentUpdate"),
      ("payload", .obj [("userId", .str "u_3499"), ("marketing", .bool true)])]),
    ("edge-consent-hubspot-cdp", .obj [("event", .str "EmailEngagement"),
      ("payload", .obj [("campaign", .str "Q4-Launch"), ("clicked", .bool true)])]),
    ("edge-feed-pim-channel", .obj [("feed", .str "ProductFeed"), ("items", .num 12000 0), ("delta", .num 140 0)]),
    ("edge-feed-repricing-channel", .obj [("feed", .str "PriceFeed"), ("rules", .num 5 0),
      ("marketplace", .str "Amazon")]),
    ("edge-feed-pim-shopify", .obj [("feed", .str "ProductSync"), ("items", .num 12000 0), ("updated", .num 320 0)]),
    ("edge-tracking-sendcloud-channels", .obj [("event", .str "TrackingUpdate"), ("status", .str "Delivered"),
      ("marketplaces", .arr [.str "Amazon", .str "eBay"])]),
    ("edge-trusted-shops-shopify", .obj [("event", .str "Badge/Review"),
      ("payload", .obj [("orderId", .str "SO-100234"), ("stars", .num 5 0)])]),
    ("edge-trusted-shops-hubspot", .obj [("sync", .str "Reviews"), ("count", .num 12 0), ("avg", .num 47 1)]),
    ("edge-trusted-shops-ga4", .obj [("analytics", .str "ReviewImpressions"), ("sessions", .num 1321 0)]),
    ("edge-trusted-shops-cdp", .obj [("event", .str "ReviewEvent"), ("audience", .str "Promoters")]),
    ("edge-gtm-ga4", .obj [("config", .str "GA4 via GTM"), ("streams", .arr [.str "Web"])]),
    ("edge-ads-shopify", .obj [("pixels", .arr [.str "Meta", .str "Google Ads", .str "TikTok"]),
      ("conversion", .str "Purchase")]),
    ("edge-analytics-cdp", .obj [("event", .str "Analytics→CDP Export"),
      ("fields", .arr [.str "sessionId", .str "source", .str "utm"])]),
    ("edge-helpdesk-hubspot", .obj [("event", .str "TicketCreated"), ("priority", .str "Medium")]),
    ("edge-chatbot-cdp", .obj [("event", .str "IntentCaptured"), ("intent", .str "ReturnQuestion")]),
    ("edge-kb-shopify", .obj [("event", .str "ArticleLink"), ("topic", .str "Size guide")]) ]

/-- Source `PAYLOADS[edge.id]`: property lookup in the payload record. -/
def payloadLookup (edgeId : String) : Option Json :=
  (PAYLOADS.find? (fun kv => kv.1 == edgeId)).map (·.2)

/-- The placeholder object substituted when an edge has no payload entry. -/
def placeholderPayload : Json :=
  .obj [("info", .str "Keine Payload für diese Kante vorhanden.")]

/-- The payload value shown by `onEdgeClick`:
`PAYLOADS[edge.id] ?? { info: ... }` (then serialized by `JSON.stringify`). -/
def onEdgeClickPayload (edgeId : String) : Json :=
  (payloadLookup edgeId).getD placeholderPayload

/-- An edge record.  `id`, `source`, `target` and the optional `label` are
the data fields; `animated` and `dashed` model the two style components the
component ever rewrites (`animated` and `style.strokeDasharray`).  The
remaining styling (`type: 'smoothstep'`, arrow marker, stroke color/width,
label style) is constant across the file and carried by no operation, so it
is not represented. -/
structure Edge where
  id : String
  source : String
  target : String
  label : Option String
  animated : Bool
  dashed : Bool
deriving DecidableEq, Repr

/-- The `e(id, source, target, label)` edge constructor (every call site in
`ALL_EDGES` supplies a label; `animated: true`, no dash). -/
def e (id source target label : String) : Edge :=
  { id := id, source := source, target := target, label := some label,
    animated := true, dashed := false }

/-- Source `const ALL_EDGES: Edge[]`, in source order (node ids substituted for the
`NODES.*` constants). -/
def ALL_EDGES : List Edge :=
  [ e "edge-b2c-chatbot" "endkunde-b2c" "chatbot" "Chat on Shopify",
    e "edge-shopify-chatbot" "shopify" "chatbot" "Embedded Chat",
    e "edge-chatbot-kb" "chatbot" "knowledge-base" "Knowledge Lookup",
    e "edge-kb-pim" "knowledge-base" "hublify-pim" "Content Source",
    e "edge-help-kb" "self-helpdesk" "knowledge-base" "Help Articles",
    e "edge-returns-kb" "returns-portal" "knowledge-base" "Return Articles",
    e "edge-kb-cdp" "knowledge-base" "cdp" "Content Events",
    e "edge-returns-cdp" "returns-portal" "cdp" "Return Events",
    e "edge-chatbot-hubspot" "chatbot" "hubspot" "Create Ticket",
    e "edge-b2b-shop" "b2b-kunde" "shopify" "B2B Order",
    e "edge-b2c-shop" "endkunde-b2c" "shopify" "B2C Order",
    e "edge-b2c-marketplace" "endkunde-b2c" "marketplace-tab" "B2C Marketplace",
    e "edge-marketplace-channelengine" "marketplace-tab" "channelengine" "Orders",
    e "edge-channelengine-oms" "channelengine" "hublify-oms" "OrderImport",
    e "edge-order-shopify-oms" "shopify" "hublify-oms" "OrderCreated",
    e "edge-order-oms-sap" "hublify-oms" "sap-s4" "Order→ERP",
    e "edge-order-sap-dachser" "sap-s4" "dachser-edi" "Shipment",
    e "edge-order-dachser-sendcloud" "dachser-edi" "sendcloud" "Tracking",
    e "edge-order-backfeed-oms" "sendcloud" "hublify-oms" "Backfeed",
    e "edge-order-backfeed-channels" "hublify-oms" "shopify" "Status→Shop",
    e "edge-order-backfeed-channels2" "hublify-oms" "channelengine" "Status→Channels",
    e "edge-returns-portal-oms" "returns-portal" "hublify-oms" "ReturnRequest",
    e "edge-returns-oms-sap" "hublify-oms" "sap-s4" "RMA",
    e "edge-returns-sap-hubspot" "sap-s4" "hubspot" "Notify",
    e "edge-returns-oms-sendcloud" "hublify-oms" "sendcloud" "Label",
    e "edge-consent-shopify-cdp" "shopify" "cdp" "Consent",
    e "edge-consent-hubspot-cdp" "hubspot" "cdp" "Engagement",
    e "edge-feed-pim-channel" "hublify-pim" "channelengine" "ProductFeed",
    e "edge-feed-repricing-channel" "repricing" "channelengine" "PriceFeed",
    e "edge-feed-pim-shopify" "hublify-pim" "shopify" "ProductSync",
    e "edge-tracking-sendcloud-channels" "sendcloud" "channelengine" "Tracking→MP",
    e "edge-trusted-shops-shopify" "trusted-shops" "shopify" "Trust/Badge",
    e "edge-trusted-shops-hubspot" "trusted-shops" "hubspot" "Reviews→CRM",
    e "edge-trusted-shops-ga4" "trusted-shops" "ga4" "Reviews→Analytics",
    e "edge-trusted-shops-cdp" "trusted-shops" "cdp" "Review Events",
    e "edge-gtm-ga4" "gtm" "ga4" "GTM→GA4",
    e "edge-ads-shopify" "ad-pixels" "shopify" "Pixels",
    e "edge-analytics-cdp" "ga4" "cdp" "Analytics Export",
    e "edge-helpdesk-hubspot" "self-helpdesk" "hubspot" "Ticket",
    e "edge-chatbot-cdp" "chatbot" "cdp" "Intents",
    e "edge-kb-shopify" "knowledge-base" "shopify" "Links" ]

/-- One scenario definition: display title and the fixed include-set. -/
structure ScenarioDef where
  title : String
  includeEdgeIds : List String
deriving DecidableEq, Repr

/-- Source `const SCENARIO_DEFS: Record<ScenarioKey, {...}>`. -/
def SCENARIO_DEFS (k : ScenarioKey) : ScenarioDef :=
  match k with
  | .OrderCreated =>
    { title := "OrderCreated (Shopify) & Channel Orders (ChannelEngine) → OMS → SAP → Dachser → Sendcloud → Backfeed",
      includeEdgeIds :=
        [ "edge-b2b-shop", "edge-b2c-shop", "edge-b2c-marketplace",
          "edge-marketplace-channelengine", "edge-channelengine-oms",
          "edge-order-shopify-oms", "edge-order-oms-sap",
          "edge-order-sap-dachser", "edge-order-dachser-sendcloud",
          "edge-order-backfeed-oms", "edge-order-backfeed-channels",
          "edge-order-backfeed-channels2" ] }
  | .Returns =>
    { title := "Returns → OMS → SAP → HubSpot / Sendcloud",
      includeEdgeIds :=
        [ "edge-returns-portal-oms", "edge-returns-oms-sap",
          "edge-returns-sap-hubspot", "edge-returns-oms-sendcloud" ] }
  | .ConsentEvents =>
    { title := "Consent / CustomerEvents → CDP",
      includeEdgeIds := [ "edge-consent-shopify-cdp", "edge-consent-hubspot-cdp" ] }
  | .Feeds =>
    { title := "ProductFeed / PriceFeed → ChannelEngine / Shopify",
      includeEdgeIds :=
        [ "edge-feed-pim-channel", "edge-feed-repricing-channel", "edge-feed-pim-shopify" ] }
  | .Tracking =>
    { title := "Tracking → Sendcloud / Marktplätze",
      includeEdgeIds := [ "edge-tracking-sendcloud-channels" ] }
  | .TrustedShops =>
    { title := "Trusted Shops → Shopify, HubSpot, Analytics, CDP",
      includeEdgeIds :=
        [ "edge-trusted-shops-shopify", "edge-trusted-shops-hubspot",
          "edge-trusted-shops-ga4", "edge-trusted-shops-cdp" ] }
  | .GA4_GTM_Ads =>
    { title := "GA4 / GTM / Ad Pixels → Shopify / CDP",
      includeEdgeIds := [ "edge-gtm-ga4", "edge-ads-shopify", "edge-analytics-cdp" ] }
  | .SelfService =>
    { title := "Self Helpdesk, Chatbot, Knowledge Base → CRM, CDP, Shopify",
      includeEdgeIds :=
        [ "edge-helpdesk-hubspot", "edge-chatbot-cdp", "edge-kb-shopify",
          "edge-b2c-chatbot", "edge-shopify-chatbot", "edge-chatbot-kb",
          "edge-kb-pim", "edge-help-kb", "edge-returns-kb", "edge-kb-cdp",
          "edge-returns-cdp", "edge-chatbot-hubspot" ] }

/-- The `filteredEdges` memo: `scenario === 'ALL'` passes the edge state
through; otherwise keep the edges whose id is in the scenario's include-set
(the `Set.has` test over `includeEdgeIds`). -/
def filteredEdges (eds : List Edge) (scenario : ScenarioSel) : List Edge :=
  match scenario with
  | .ALL => eds
  | .named k => eds.filter (fun ed => (SCENARIO_DEFS k).includeEdgeIds.contains ed.id)

/-- A raw string held in a position-record localStorage slot, classified by
how the component's read path treats it:
`posDoc m` is `JSON.stringify` of a position record (non-empty, parses back
to `m`); `emptyString` is `""` (falsy, so the `savedRaw ? ... : null` test
skips parsing); `malformedOther` is any other text `JSON.parse` rejects.
Every write the component performs stores a `posDoc`. -/
inductive Stored where
  | posDoc (m : PosMap)
  | emptyString
  | malformedOther
deriving DecidableEq, Repr

/-- The two position slots of localStorage,
`techstackflow_positions_cube` / `techstackflow_positions_lanes`
(`LS_KEY.POSITIONS(mode)`); `none` when `getItem` returns `null`. -/
structure Store where
  cube : Option Stored
  lanes : Option Stored
deriving DecidableEq, Repr

/-- Source `localStorage.getItem(LS_KEY.POSITIONS(mode))`. -/
def storeGet (st : Store) (mode : LayoutMode) : Option Stored :=
  match mode with
  | .cube => st.cube
  | .lanes => st.lanes

/-- Source `localStorage.setItem` / `removeItem` on `LS_KEY.POSITIONS(mode)`. -/
def storeSet (st : Store) (mode : LayoutMode) (v : Option Stored) : Store :=
  match mode with
  | .cube => { st with cube := v }
  | .lanes => { st with lanes := v }

/-- Source `makeNodesForLayout(mode)`, projected to the (id, position) content of
the node list it builds (the rest of `makeNode` is constant presentational
data).  An `.error` result is the uncaught `JSON.parse` exception on a
non-empty unparseable slot; otherwise the node for each `NODE_META` key gets
`saved?.[id] ?? base[id] ?? { x: 0, y: 0 }`. -/
def makeNodesForLayout (st : Store) (mode : LayoutMode) :
    Except Unit (List (String × Pos)) :=
  let base := presetOf mode
  match storeGet st mode with
  | none =>
    .ok (nodeIds.map (fun id => (id, (lookupPos base id).getD ⟨0, 0⟩)))
  | some .emptyString =>
    .ok (nodeIds.map (fun id => (id, (lookupPos base id).getD ⟨0, 0⟩)))
  | some .malformedOther => .error ()
  | some (.posDoc m) =>
    .ok (nodeIds.map (fun id =>
      (id, (lookupPos m id).getD ((lookupPos base id).getD ⟨0, 0⟩))))

/-- The node list `makeNodesForLayout` produces when the slot for `mode` is
empty: the built-in preset (with the dead `?? {x:0,y:0}` fallback). -/
def presetNodes (mode : LayoutMode) : List (String × Pos) :=
  nodeIds.map (fun id => (id, (lookupPos (presetOf mode) id).getD ⟨0, 0⟩))

/-- A `Connection` reactflow hands to `onConnect` (source/target and handles
may be null). -/
structure Connection where
  source : Option String
  target : Option String
  sourceHandle : Option String
  targetHandle : Option String
deriving DecidableEq, Repr

/-- reactflow's `addEdge` applied to the spread `{...conn, type, animated:
playing, markerEnd}` built in `onConnect`: connections missing an endpoint
are dropped, the id is derived from endpoints and handles, an edge whose id
already exists is not added again, otherwise the new edge is appended. -/
def onConnectEdges (playing : Bool) (conn : Connection) (eds : List Edge) :
    List Edge :=
  match conn.source, conn.target with
  | some s, some t =>
    let newId := "reactflow__edge-" ++ s ++ conn.sourceHandle.getD "" ++ "-"
      ++ t ++ conn.targetHandle.getD ""
    if eds.any (fun ed => ed.id == newId) then eds
    else eds ++ [{ id := newId, source := s, target := t, label := none,
                   animated := playing, dashed := false }]
  | _, _ => eds

/-- The `[playing]` effect: every edge gets `animated: playing` and
`strokeDasharray: playing ? undefined : '6 4'`. -/
def restyleEdges (playing : Bool) (eds : List Edge) : List Edge :=
  eds.map (fun ed => { ed with animated := playing, dashed := !playing })

/-- The view-controller state: the `useState` hooks that carry behaviour
(`layout`, `scenario`, `playing`, `selectedPayload`), the node and edge
state, and the localStorage position slots.  Hover/tooltip state and the
theme record are presentational and not modelled. -/
structure FlowState where
  layout : LayoutMode
  scenario : ScenarioSel
  playing : Bool
  nodes : List (String × Pos)
  edges : List Edge
  store : Store
  selectedPayload : Option (String × Json)

/-- An import file's content as the component's `reader.onload` sees it:
either text `JSON.parse` rejects, or a parsed document with optional
`layout` and `positions` fields (the export/import document shape). -/
inductive FileContent where
  | malformed
  | doc (layout : Option LayoutMode) (positions : Option PosMap)

/-- Source `onNodeDragStop`: update the dragged node's position in the node state,
then persist the full snapshot (a JS object built from every node) under the
current layout's key. -/
def onNodeDragStop (s : FlowState) (nid : String) (p : Pos) : FlowState :=
  let next := s.nodes.map (fun n => if n.1 == nid then (n.1, p) else n)
  let map := objFromPairs next
  { s with nodes := next,
           store := storeSet s.store s.layout (some (.posDoc map)) }

/-- Source `switchLayout(mode)`: set the layout, rebuild the node list from the
store (an unparseable slot makes `makeNodesForLayout` throw, propagating out
of the handler). -/
def switchLayout (s : FlowState) (mode : LayoutMode) : Except Unit FlowState :=
  (makeNodesForLayout s.store mode).map
    (fun ns => { s with layout := mode, nodes := ns })

/-- Source `setScenario` from the select / reset-filter button. -/
def setScenario (s : FlowState) (sel : ScenarioSel) : FlowState :=
  { s with scenario := sel }

/-- Source `setPlaying((p) => !p)` together with its restyling effect. -/
def togglePlay (s : FlowState) : FlowState :=
  { s with playing := !s.playing,
           edges := restyleEdges (!s.playing) s.edges }

/-- Source `resetLayout()`: without confirmation nothing happens; confirmed, the
current mode's slot is removed and the nodes rebuilt (the rebuild reads the
just-cleared slot, so it cannot throw, but the call is kept as in source). -/
def resetLayout (s : FlowState) (confirmed : Bool) : Except Unit FlowState :=
  if !confirmed then .ok s
  else
    let st := storeSet s.store s.layout none
    (makeNodesForLayout st s.layout).map
      (fun ns => { s with store := st, nodes := ns })

/-- Source `restoreProLayout()`: write the current mode's preset into its slot,
then rebuild the nodes from the store. -/
def restoreProLayout (s : FlowState) : Except Unit FlowState :=
  let st := storeSet s.store s.layout (some (.posDoc (presetOf s.layout)))
  (makeNodesForLayout st s.layout).map
    (fun ns => { s with store := st, nodes := ns })

/-- Source `exportJSON()`: the `{ layout, positions }` document it serializes
(positions built by the `nodes.reduce` object construction). -/
def exportDoc (s : FlowState) : FileContent :=
  .doc (some s.layout) (some (objFromPairs s.nodes))

/-- Source `importJSON(file)`: the `reader.onload` body.  Unparseable text is
caught and alerts (second component `true`), leaving the state untouched.
A parsed document falls back to the current layout / empty positions, writes
the positions under the declared mode's key, switches the layout and
rebuilds the nodes.  Should the rebuild throw (it cannot: it reads the
freshly written record) the catch fires after the store and layout writes
already happened. -/
def importJSON (s : FlowState) (fc : FileContent) : FlowState × Bool :=
  match fc with
  | .malformed => (s, true)
  | .doc l? p? =>
    let mode := l?.getD s.layout
    let pos := p?.getD []
    let st := storeSet s.store mode (some (.posDoc pos))
    match makeNodesForLayout st mode with
    | .ok ns => ({ s with layout := mode, nodes := ns, store := st }, false)
    | .error _ => ({ s with layout := mode, store := st }, true)

/-- Source `onEdgeClick`: stores the clicked edge's id and payload for the side
panel; nothing else of the state is touched. -/
def onEdgeClick (s : FlowState) (edgeId : String) : FlowState :=
  { s with selectedPayload := some (edgeId, onEdgeClickPayload edgeId) }

/-- Source `onConnect`: replaces the edge state by `addEdge` of the drawn
connection. -/
def onConnect (s : FlowState) (conn : Connection) : FlowState :=
  { s with edges := onConnectEdges s.playing conn s.edges }

/-- The states the component can be in: mount over any pre-existing store
whose cube slot the initial `makeNodesForLayout('cube')` can read, closed
under every handler.  `switchLayout` is only taken when it does not throw. -/
inductive Reachable : FlowState → Prop where
  | init (st : Store) (ns : List (String × Pos))
      (h : makeNodesForLayout st .cube = .ok ns) :
      Reachable { layout := .cube, scenario := .ALL, playing := true,
                  nodes := ns, edges := ALL_EDGES, store := st,
                  selectedPayload := none }
  | dragStop (s : FlowState) (nid : String) (p : Pos) (hs : Reachable s) :
      Reachable (onNodeDragStop s nid p)
  | switch (s s' : FlowState) (mode : LayoutMode) (hs : Reachable s)
      (h : switchLayout s mode = .ok s') : Reachable s'
  | scenario (s : FlowState) (sel : ScenarioSel) (hs : Reachable s) :
      Reachable (setScenario s sel)
  | play (s : FlowState) (hs : Reachable s) : Reachable (togglePlay s)
  | reset (s s' : FlowState) (confirmed : Bool) (hs : Reachable s)
      (h : resetLayout s confirmed = .ok s') : Reachable s'
  | restore (s s' : FlowState) (hs : Reachable s)
      (h : restoreProLayout s = .ok s') : Reachable s'
  | importFile (s : FlowState) (fc : FileContent) (hs : Reachable s) :
      Reachable (importJSON s fc).1
  | edgeClick (s : FlowState) (edgeId : String) (hs : Reachable s) :
      Reachable (onEdgeClick s edgeId)
  | connect (s : FlowState) (conn : Connection) (hs : Reachable s) :
      Reachable (onConnect s conn)

/-- The store of a fresh browser origin: both position slots empty. -/
def emptyStore : Store := { cube := none, lanes := none }

/-- The component's mount state over an empty store: cube layout, all flows,
animation on, preset positions, the full static edge list. -/
def initState : FlowState :=
  { layout := .cube, scenario := .ALL, playing := true,
    nodes := presetNodes .cube, edges := ALL_EDGES, store := emptyStore,
    selectedPayload := none }

/-- The 22 node identifiers are pairwise distinct. -/
theorem nodeIds_nodup : nodeIds.Nodup := by decide

/-- Reading the slot just written. -/
theorem storeGet_storeSet_same (st : Store) (mode : LayoutMode)
    (v : Option Stored) : storeGet (storeSet st mode v) mode = v := by
  cases mode <;> rfl

/-- Writing one mode's slot leaves the other slot untouched. -/
theorem storeGet_storeSet_other (st : Store) (mode mode' : LayoutMode)
    (v : Option Stored) (h : mode' ≠ mode) :
    storeGet (storeSet st mode v) mode' = storeGet st mode' := by
  cases mode <;> cases mode' <;> simp_all [storeGet, storeSet]

/-- Rebuilding an association list from its own key list by lookup is the
identity when the keys are distinct. -/
theorem map_lookup_reconstruct (m : List (String × Pos)) (d : String → Pos)
    (hnd : (m.map Prod.fst).Nodup) :
    (m.map Prod.fst).map (fun id => (id, (lookupPos m id).getD (d id))) = m := by
  induction m with
  | nil => rfl
  | cons kv tl ih =>
    obtain ⟨k, v⟩ := kv
    simp only [List.map_cons, List.nodup_cons] at hnd ⊢
    obtain ⟨hk, htl⟩ := hnd
    have hhead : lookupPos ((k, v) :: tl) k = some v := by
      simp [lookupPos, List.find?]
    have htail : ∀ id ∈ tl.map Prod.fst,
        lookupPos ((k, v) :: tl) id = lookupPos tl id := by
      intro id hid
      have hne : (k == id) = false := by
        simp only [beq_eq_false_iff_ne, ne_eq]
        intro hkid
        exact hk (hkid ▸ hid)
      simp [lookupPos, List.find?, hne]
    rw [hhead]
    refine congrArg (fun l => (k, v) :: l) ?_
    rw [List.map_congr_left (fun id hid => by rw [htail id hid]),
      ih htl]

/-- C1 evidence: with a non-empty unparseable string persisted under a
layout's key, `makeNodesForLayout` for that layout throws (the uncaught
`JSON.parse` exception) instead of falling back to the preset; the fallback
only happens when the slot is absent (or the stored string is empty and thus
falsy). -/
theorem makeNodesForLayout_malformed_throws :
    makeNodesForLayout { cube := some .malformedOther, lanes := none } .cube
      = .error ()
    ∧ makeNodesForLayout { cube := none, lanes := some .malformedOther } .lanes
      = .error ()
    ∧ makeNodesForLayout emptyStore .cube = .ok (presetNodes .cube)
    ∧ makeNodesForLayout { cube := some .emptyString, lanes := none } .cube
      = .ok (presetNodes .cube) :=
  ⟨rfl, rfl, rfl, rfl⟩

/-- C5: filtering with the sentinel scenario ALL returns the edge list
itself, unmodified and in order. -/
theorem filteredEdges_all_eq (eds : List Edge) :
    filteredEdges eds .ALL = eds := rfl

/-- C4: for every edge list and named scenario, the filter keeps exactly the
edges whose id lies in that scenario's include-set (and nothing else), as a
sublist of the input — original order preserved, elements unmutated. -/
theorem filteredEdges_named_spec (eds : List Edge) (k : ScenarioKey) :
    (∀ ed, ed ∈ filteredEdges eds (.named k) ↔
      ed ∈ eds ∧ ed.id ∈ (SCENARIO_DEFS k).includeEdgeIds)
    ∧ (filteredEdges eds (.named k)).Sublist eds := by
  constructor
  · intro ed
    simp [filteredEdges, List.mem_filter]
  · simp [filteredEdges]

/-- C9: clicking an edge only fills the payload panel — layout, scenario,
animation flag, nodes, edges and the persisted store are untouched — and the
displayed payload is the static table entry for the edge id when one exists,
the fixed placeholder object when none does. -/
theorem onEdgeClick_spec (s : FlowState) (edgeId : String) :
    ((onEdgeClick s edgeId).layout = s.layout
      ∧ (onEdgeClick s edgeId).scenario = s.scenario
      ∧ (onEdgeClick s edgeId).playing = s.playing
      ∧ (onEdgeClick s edgeId).nodes = s.nodes
      ∧ (onEdgeClick s edgeId).edges = s.edges
      ∧ (onEdgeClick s edgeId).store = s.store)
    ∧ (∀ j, payloadLookup edgeId = some j → onEdgeClickPayload edgeId = j)
    ∧ (payloadLookup edgeId = none →
        onEdgeClickPayload edgeId = placeholderPayload) := by
  refine ⟨⟨rfl, rfl, rfl, rfl, rfl, rfl⟩, ?_, ?_⟩
  · intro j hj
    simp [onEdgeClickPayload, hj]
  · intro h
    simp [onEdgeClickPayload, h]

/-- C9 witness: a known edge id yields its table payload, an unknown id the
placeholder. -/
theorem onEdgeClick_spec_witness :
    payloadLookup "edge-gtm-ga4"
      = some (.obj [("config", .str "GA4 via GTM"), ("streams", .arr [.str "Web"])])
    ∧ onEdgeClickPayload "edge-gtm-ga4"
      = .obj [("config", .str "GA4 via GTM"), ("streams", .arr [.str "Web"])]
    ∧ payloadLookup "edge-unknown" = none
    ∧ onEdgeClickPayload "edge-unknown" = placeholderPayload := by
  have h1 : payloadLookup "edge-gtm-ga4"
      = some (.obj [("config", .str "GA4 via GTM"), ("streams", .arr [.str "Web"])]) := rfl
  have h2 : payloadLookup "edge-unknown" = none := rfl
  exact ⟨h1, (onEdgeClick_spec initState "edge-gtm-ga4").2.1 _ h1, h2,
    (onEdgeClick_spec initState "edge-unknown").2.2 h2⟩

/-- C2 counterexample: drawing a connection from `gtm` to `shopify` in the
mount state makes `onConnect` add an edge to the edge state — the edge set is
not static under the view controller's operations. -/
theorem onConnect_adds_edge_counterexample :
    (onConnect initState
        { source := some "gtm", target := some "shopify",
          sourceHandle := none, targetHandle := none }).edges
      ≠ initState.edges
    ∧ ((onConnect initState
        { source := some "gtm", target := some "shopify",
          sourceHandle := none, targetHandle := none }).edges).length
      = initState.edges.length + 1 := by
  have hlen : ((onConnect initState
      { source := some "gtm", target := some "shopify",
        sourceHandle := none, targetHandle := none }).edges).length
      = initState.edges.length + 1 := by decide
  refine ⟨fun h => ?_, hlen⟩
  rw [h] at hlen
  omega

/-- C2 amended: the static catalog `ALL_EDGES` itself is never written, and
no handler removes, reorders or drops existing edges; but the edge state is
not fixed: `onConnect` appends at most one new edge for a drawn connection
(leaving every existing edge in place), and the play/pause effect only
rewrites each edge's animation styling, preserving ids and order. -/
theorem onConnect_appends_at_most_one (playing : Bool) (conn : Connection)
    (eds : List Edge) :
    (onConnectEdges playing conn eds = eds
      ∨ ∃ ed, onConnectEdges playing conn eds = eds ++ [ed])
    ∧ (restyleEdges playing eds).map Edge.id = eds.map Edge.id := by
  constructor
  · obtain ⟨src, tgt, sh, th⟩ := conn
    cases src with
    | none => left; rfl
    | some s =>
      cases tgt with
      | none => left; rfl
      | some t =>
        simp only [onConnectEdges]
        split
        · left; rfl
        · right; exact ⟨_, rfl⟩
  · simp [restyleEdges, List.map_map, Function.comp]

/-- C3: importing unparseable text alerts and leaves the whole state (layout,
nodes, edges, store, everything) unchanged; importing a parsed document with
declared layout and positions signals no error, persists the positions under
the declared layout's key and switches the current layout to it. -/
theorem importJSON_spec (s : FlowState) (lyt : LayoutMode) (pos : PosMap) :
    importJSON s .malformed = (s, true)
    ∧ (importJSON s (.doc (some lyt) (some pos))).2 = false
    ∧ (importJSON s (.doc (some lyt) (some pos))).1.layout = lyt
    ∧ storeGet (importJSON s (.doc (some lyt) (some pos))).1.store lyt
        = some (.posDoc pos) := by
  have hmk : makeNodesForLayout (storeSet s.store lyt (some (.posDoc pos))) lyt
      = .ok (nodeIds.map (fun id =>
          (id, (lookupPos pos id).getD
            ((lookupPos (presetOf lyt) id).getD ⟨0, 0⟩)))) := by
    unfold makeNodesForLayout
    rw [storeGet_storeSet_same]
  refine ⟨rfl, ?_, ?_, ?_⟩ <;>
    simp [importJSON, hmk, storeGet_storeSet_same]

/-- C8: importing a parseable document that declares a layout but carries no
positions leaves every node at that layout's preset position and switches to
that layout; a document with positions but no declared layout is imported
into the current layout. -/
theorem importJSON_defaults (s : FlowState) (mode : LayoutMode)
    (pos : PosMap) :
    (importJSON s (.doc (some mode) none)).1.nodes = presetNodes mode
    ∧ (importJSON s (.doc (some mode) none)).1.layout = mode
    ∧ (importJSON s (.doc none (some pos))).1.layout = s.layout := by
  have hmk : makeNodesForLayout (storeSet s.store mode (some (.posDoc []))) mode
      = .ok (presetNodes mode) := by
    unfold makeNodesForLayout
    rw [storeGet_storeSet_same]
    simp [lookupPos, presetNodes]
  have hmk2 : ∀ q, makeNodesForLayout
        (storeSet s.store s.layout (some (.posDoc q))) s.layout
      = .ok (nodeIds.map (fun id =>
          (id, (lookupPos q id).getD
            ((lookupPos (presetOf s.layout) id).getD ⟨0, 0⟩)))) := by
    intro q
    unfold makeNodesForLayout
    rw [storeGet_storeSet_same]
  refine ⟨?_, ?_, ?_⟩ <;> simp [importJSON, hmk, hmk2]

/-- C6: saving a complete position snapshot (one binding per catalog node
id, represented in catalog key order) under a mode and loading that mode
right back yields the saved snapshot, and the save leaves the other mode's
persisted slot exactly as it was. -/
theorem load_after_save_roundtrip (st : Store) (mode mode' : LayoutMode)
    (m : PosMap) (hdom : m.map Prod.fst = nodeIds) (hne : mode' ≠ mode) :
    makeNodesForLayout (storeSet st mode (some (.posDoc m))) mode = .ok m
    ∧ storeGet (storeSet st mode (some (.posDoc m))) mode'
        = storeGet st mode' := by
  constructor
  · unfold makeNodesForLayout
    rw [storeGet_storeSet_same, ← hdom]
    exact congrArg Except.ok
      (map_lookup_reconstruct m _ (hdom ▸ nodeIds_nodup))
  · exact storeGet_storeSet_other st mode mode' _ hne

/-- C6 witness: a concrete complete snapshot round-trips through the cube
slot and the lanes slot is untouched. -/
theorem load_after_save_roundtrip_witness :
    makeNodesForLayout (storeSet emptyStore .cube
        (some (.posDoc (nodeIds.map (fun id => (id, (⟨1, 2⟩ : Pos))))))) .cube
      = .ok (nodeIds.map (fun id => (id, (⟨1, 2⟩ : Pos))))
    ∧ storeGet (storeSet emptyStore .cube
        (some (.posDoc (nodeIds.map (fun id => (id, (⟨1, 2⟩ : Pos))))))) .lanes
      = storeGet emptyStore .lanes :=
  load_after_save_roundtrip emptyStore .cube .lanes
    (nodeIds.map (fun id => (id, (⟨1, 2⟩ : Pos)))) rfl (by decide)

/-- Confirmed reset: clear the current mode's slot and rebuild the preset. -/
theorem resetLayout_confirmed (s : FlowState) :
    resetLayout s true = .ok { s with
      store := storeSet s.store s.layout none,
      nodes := presetNodes s.layout } := by
  have h : makeNodesForLayout (storeSet s.store s.layout none) s.layout
      = .ok (presetNodes s.layout) := by
    unfold makeNodesForLayout
    rw [storeGet_storeSet_same]
    rfl
  simp [resetLayout, h, Except.map]

/-- C7: after a drag-stop moved any node anywhere (persisting the moved
snapshot), a confirmed reset succeeds, restores exactly the preset positions
of the current mode for every node, keeps the mode, clears the current
mode's persisted slot, and leaves the other mode's slot as it was before
the drag. -/
theorem resetLayout_after_dragStop (s : FlowState) (nid : String) (p : Pos) :
    ∃ s', resetLayout (onNodeDragStop s nid p) true = .ok s'
      ∧ s'.nodes = presetNodes s.layout
      ∧ s'.layout = s.layout
      ∧ storeGet s'.store s.layout = none
      ∧ ∀ mode, mode ≠ s.layout →
          storeGet s'.store mode = storeGet s.store mode := by
  refine ⟨_, resetLayout_confirmed (onNodeDragStop s nid p), rfl, rfl,
    storeGet_storeSet_same _ _ _, ?_⟩
  intro mode h
  show storeGet (storeSet (storeSet s.store s.layout
      (some (.posDoc (objFromPairs (s.nodes.map
        (fun n => if n.1 == nid then (n.1, p) else n)))))) s.layout none) mode
    = storeGet s.store mode
  rw [storeGet_storeSet_other _ _ _ _ h]
  exact storeGet_storeSet_other _ _ _ _ h

/-- Assigning a key absent from the object appends the binding. -/
theorem objInsert_fresh (m : PosMap) (k : String) (v : Pos)
    (h : m.any (fun kv => kv.1 == k) = false) :
    objInsert m k v = m ++ [(k, v)] := by
  simp [objInsert, h]

/-- With pairwise-distinct keys, JS object construction from a pair list
reproduces the list. -/
theorem objFromPairs_nodup (l : List (String × Pos))
    (h : (l.map Prod.fst).Nodup) : objFromPairs l = l := by
  suffices haux : ∀ (tl acc : List (String × Pos)),
      ((acc ++ tl).map Prod.fst).Nodup →
      tl.foldl (fun m kv => objInsert m kv.1 kv.2) acc = acc ++ tl by
    simpa [objFromPairs] using haux l [] (by simpa using h)
  intro tl
  induction tl with
  | nil => intro acc _; simp
  | cons kv tl ih =>
    intro acc hnd
    obtain ⟨k, v⟩ := kv
    have hk : k ∉ acc.map Prod.fst := by
      rw [List.map_append] at hnd
      have hdisj := List.disjoint_of_nodup_append hnd
      intro hmem
      exact hdisj hmem (by simp)
    have hfresh : acc.any (fun kv => kv.1 == k) = false := by
      rw [List.any_eq_false]
      intro kv hkv
      simp only [beq_iff_eq]
      intro hkk
      exact hk (hkk ▸ List.mem_map_of_mem Prod.fst hkv)
    rw [List.foldl_cons]
    have hstep : objInsert acc k v = acc ++ [(k, v)] :=
      objInsert_fresh acc k v hfresh
    rw [hstep, ih (acc ++ [(k, v)])
      (by rw [List.append_assoc, List.singleton_append]; exact hnd),
      List.append_assoc, List.singleton_append]

/-- Projecting the keys back out of a keyed pairing is the identity. -/
theorem map_pair_fst (f : String → Pos) (l : List String) :
    (l.map (fun id => (id, f id))).map Prod.fst = l := by
  induction l with
  | nil => rfl
  | cons a tl ih => simp [ih]

/-- The key list of `presetNodes`. -/
theorem presetNodes_keys (mode : LayoutMode) :
    (presetNodes mode).map Prod.fst = nodeIds := by
  unfold presetNodes
  exact map_pair_fst _ _

/-- Every successfully built node list carries exactly the catalog's node
ids, in catalog order. -/
theorem makeNodesForLayout_keys (st : Store) (mode : LayoutMode)
    (ns : List (String × Pos)) (h : makeNodesForLayout st mode = .ok ns) :
    ns.map Prod.fst = nodeIds := by
  unfold makeNodesForLayout at h
  cases hg : storeGet st mode with
  | none =>
    rw [hg] at h
    simp only [Except.ok.injEq] at h
    subst h
    exact map_pair_fst _ _
  | some sv =>
    cases sv with
    | posDoc m =>
      rw [hg] at h
      simp only [Except.ok.injEq] at h
      subst h
      exact map_pair_fst _ _
    | emptyString =>
      rw [hg] at h
      simp only [Except.ok.injEq] at h
      subst h
      exact map_pair_fst _ _
    | malformedOther =>
      rw [hg] at h
      simp at h

/-- Invariant of the state machine: the node state always consists of
exactly the catalog's node ids, in catalog order. -/
theorem reachable_nodes_keys (s : FlowState) (h : Reachable s) :
    s.nodes.map Prod.fst = nodeIds := by
  induction h with
  | init st ns hmk => exact makeNodesForLayout_keys _ _ _ hmk
  | dragStop s nid p hs ih =>
    simp only [onNodeDragStop, List.map_map]
    rw [← ih]
    refine List.map_congr_left ?_
    intro n _
    simp only [Function.comp_apply]
    split <;> rfl
  | switch s s' mode hs h ih =>
    unfold switchLayout at h
    cases hmk : makeNodesForLayout s.store mode with
    | error u => rw [hmk] at h; simp [Except.map] at h
    | ok ns =>
      rw [hmk] at h
      simp only [Except.map, Except.ok.injEq] at h
      subst h
      exact makeNodesForLayout_keys _ _ _ hmk
  | scenario s sel hs ih => exact ih
  | play s hs ih => exact ih
  | reset s s' confirmed hs h ih =>
    cases confirmed with
    | false =>
      simp only [resetLayout, Bool.not_false, if_pos, Except.ok.injEq] at h
      subst h
      exact ih
    | true =>
      rw [resetLayout_confirmed s] at h
      simp only [Except.ok.injEq] at h
      subst h
      exact presetNodes_keys s.layout
  | restore s s' hs h ih =>
    simp only [restoreProLayout] at h
    cases hmk : makeNodesForLayout
        (storeSet s.store s.layout (some (.posDoc (presetOf s.layout))))
        s.layout with
    | error u => rw [hmk] at h; simp [Except.map] at h
    | ok ns =>
      rw [hmk] at h
      simp only [Except.map, Except.ok.injEq] at h
      subst h
      exact makeNodesForLayout_keys _ _ _ hmk
  | importFile s fc hs ih =>
    cases fc with
    | malformed => exact ih
    | doc l? p? =>
      cases hmk : makeNodesForLayout
          (storeSet s.store (l?.getD s.layout) (some (.posDoc (p?.getD []))))
          (l?.getD s.layout) with
      | error u => simp [importJSON, hmk]; exact ih
      | ok ns =>
        simp [importJSON, hmk]
        exact makeNodesForLayout_keys _ _ _ hmk
  | edgeClick s edgeId hs ih => exact ih
  | connect s conn hs ih => exact ih

/-- C10: from every reachable state, importing the document just exported
raises no error and restores the layout mode and the position of every node
at export time (the node state itself). -/
theorem export_import_roundtrip (s : FlowState) (h : Reachable s) :
    (importJSON s (exportDoc s)).2 = false
    ∧ (importJSON s (exportDoc s)).1.layout = s.layout
    ∧ (importJSON s (exportDoc s)).1.nodes = s.nodes := by
  have hkeys := reachable_nodes_keys s h
  have hnd : (s.nodes.map Prod.fst).Nodup := by
    rw [hkeys]; exact nodeIds_nodup
  have hobj : objFromPairs s.nodes = s.nodes := objFromPairs_nodup _ hnd
  have hmk : makeNodesForLayout
      (storeSet s.store s.layout (some (.posDoc (objFromPairs s.nodes))))
      s.layout = .ok s.nodes := by
    unfold makeNodesForLayout
    rw [storeGet_storeSet_same, hobj, ← hkeys]
    exact congrArg Except.ok (map_lookup_reconstruct s.nodes _ hnd)
  refine ⟨?_, ?_, ?_⟩ <;> simp [importJSON, exportDoc, hmk]

/-- C10 witness: the round-trip at the mount state over an empty store. -/
theorem export_import_roundtrip_witness :
    (importJSON initState (exportDoc initState)).2 = false
    ∧ (importJSON initState (exportDoc initState)).1.layout = initState.layout
    ∧ (importJSON initState (exportDoc initState)).1.nodes = initState.nodes :=
  export_import_roundtrip initState
    (Reachable.init emptyStore (presetNodes .cube) rfl)

end TechStackFlow
